import Mathlib

/-!
Shallow embedding of `src/services/tenant-ui/frontend/src/helpers/constants.ts`
from the traction tenant-ui frontend. The module is pure data: table options,
API path constants and templated path accessors, and two status enumerations.
Template literals of the form `/a/${id}/b` are embedded as string appends
`"/a/" ++ id ++ "/b"`.
-/

namespace Traction

namespace TABLE_OPT

def ROWS_DEFAULT : Nat := 10

def ROWS_OPTIONS : List Nat := [10, 25, 50]

end TABLE_OPT

namespace API_PATH

def CONFIG : String := "/config"

def EMAIL_CONFIRMATION : String := "/email/reservationConfirmation"

def EMAIL_STATUS : String := "/email/reservationStatus"

def INNKEEPER_TOKEN : String := "/innkeeper/token"

def INNKEEPER_TENANTS : String := "/innkeeper/tenants/"

def INNKEEPER_TENANT (id : String) : String := "/innkeeper/tenants/" ++ id

def INNKEEPER_RESERVATIONS : String := "/innkeeper/reservations/"

def INNKEEPER_RESERVATIONS_APPROVE (id : String) : String :=
  "/innkeeper/reservations/" ++ id ++ "/approve"

def INNKEEPER_RESERVATIONS_DENY (id : String) : String :=
  "/innkeeper/reservations/" ++ id ++ "/deny"

def OIDC_INNKEEPER_LOGIN : String := "/api/innkeeperLogin"

def TENANT_TOKEN : String := "/tenant/token"

def CONNECTIONS : String := "/connections"

def CONNECTION (id : String) : String := "/connections/" ++ id

def CONNECTIONS_CREATE_INVITATION : String := "/connections/create-invitation"

def CONNECTIONS_INVITATION (id : String) : String :=
  "/connections/" ++ id ++ "/invitation"

def HOLDER_CREDENTIALS : String := "/tenant/v1/holder/credentials/"

def HOLDER_CREDENTIALS_ACCEPT_OFFER (id : String) : String :=
  "/tenant/v1/holder/credentials/" ++ id ++ "/accept-offer"

def HOLDER_CREDENTIALS_REJECT_OFFER (id : String) : String :=
  "/tenant/v1/holder/credentials/" ++ id ++ "/reject-offer"

def HOLDER_CREDENTIAL (id : String) : String :=
  "/tenant/v1/holder/credentials/" ++ id

def HOLDER_PRESENTATIONS : String := "/tenant/v1/holder/presentations/"

def HOLDER_PRESENTATION (id : String) : String :=
  "/tenant/v1/holder/presentations/" ++ id

def ISSUER_CREDENTIALS : String := "/tenant/v1/issuer/credentials/"

def ISSUER_CREDENTIAL (id : String) : String :=
  "/tenant/v1/issuer/credentials/" ++ id

def ISSUER_CREDENTIAL_REVOKE (id : String) : String :=
  "/tenant/v1/issuer/credentials/" ++ id ++ "/revoke-credential"

def VERIFIER_PRESENTATIONS : String := "/tenant/v1/verifier/presentations/"

def VERIFIER_PRESENTATION (id : String) : String :=
  "/tenant/v1/verifier/presentations/" ++ id

def VERIFIER_PRESENTATION_ADHOC_REQUEST : String :=
  "/tenant/v1/verifier/presentations/adhoc-request"

def VERIFIER_PRESENTATION_TEMPLATES : String :=
  "/tenant/v1/verifier/presentation_templates/"

def GOVERNANCE_SCHEMA_TEMPLATES : String :=
  "/tenant/v1/governance/schema_templates/"

def GOVERNANCE_SCHEMA_TEMPLATES_IMPORT : String :=
  "/tenant/v1/governance/schema_templates/import"

def GOVERNANCE_SCHEMA_TEMPLATE (id : String) : String :=
  "/tenant/v1/governance/schema_templates/" ++ id

def GOVERNANCE_CREDENTIAL_TEMPLATES : String :=
  "/tenant/v1/governance/credential_templates/"

def GOVERNANCE_CREDENTIAL_TEMPLATE (id : String) : String :=
  "/tenant/v1/governance/credential_templates/" ++ id

def BASICMESSAGES : String := "/basicmessages"

def BASICMESSAGES_SEND (connId : String) : String :=
  "/connections/" ++ connId ++ "/send-message"

def TENANT_SELF : String := "/tenant"

def TENANT_ENDORSER_CONNECTION : String := "/tenant/endorser-connection"

def TENANT_ENDORSER_INFO : String := "/tenant/endorser-info"

def TENANT_REGISTER_PUBLIC_DID : String := "/tenant/register-public-did"

def MULTITENANCY_RESERVATIONS : String := "/multitenancy/reservations"

def MULTITENANCY_RESERVATION (resId : String) : String :=
  "/multitenancy/reservations/" ++ resId

def MULTITENANCY_RESERVATION_CHECK_IN (resId : String) : String :=
  "/multitenancy/reservations/" ++ resId ++ "/check-in"

def MULTITENANCY_TENANT_TOKEN (tenantId : String) : String :=
  "/multitenancy/tenant/" ++ tenantId ++ "/token"

def MULTITENANCY_WALLET_TOKEN (tenantId : String) : String :=
  "/multitenancy/wallet/" ++ tenantId ++ "/token"

def WALLET_DID_PUBLIC : String := "/wallet/did/public"

end API_PATH

namespace CONNECTION_STATUSES

def INVITATION : String := "invitation"

def ACTIVE : String := "active"

def RESPONSE : String := "response"

end CONNECTION_STATUSES

namespace RESERVATION_STATUSES

def APPROVED : String := "approved"

def CHECKED_IN : String := "checked_in"

def DENIED : String := "denied"

def REQUESTED : String := "requested"

def SHOW_WALLET : String := "show_wallet"

end RESERVATION_STATUSES

/-- List of every constant (non-templated) path exported by `API_PATH`, in
source order. -/
def constantPaths : List String :=
  [API_PATH.CONFIG, API_PATH.EMAIL_CONFIRMATION, API_PATH.EMAIL_STATUS,
   API_PATH.INNKEEPER_TOKEN, API_PATH.INNKEEPER_TENANTS,
   API_PATH.INNKEEPER_RESERVATIONS, API_PATH.OIDC_INNKEEPER_LOGIN,
   API_PATH.TENANT_TOKEN, API_PATH.CONNECTIONS,
   API_PATH.CONNECTIONS_CREATE_INVITATION, API_PATH.HOLDER_CREDENTIALS,
   API_PATH.HOLDER_PRESENTATIONS, API_PATH.ISSUER_CREDENTIALS,
   API_PATH.VERIFIER_PRESENTATIONS, API_PATH.VERIFIER_PRESENTATION_ADHOC_REQUEST,
   API_PATH.VERIFIER_PRESENTATION_TEMPLATES, API_PATH.GOVERNANCE_SCHEMA_TEMPLATES,
   API_PATH.GOVERNANCE_SCHEMA_TEMPLATES_IMPORT,
   API_PATH.GOVERNANCE_CREDENTIAL_TEMPLATES, API_PATH.BASICMESSAGES,
   API_PATH.TENANT_SELF, API_PATH.TENANT_ENDORSER_CONNECTION,
   API_PATH.TENANT_ENDORSER_INFO, API_PATH.TENANT_REGISTER_PUBLIC_DID,
   API_PATH.MULTITENANCY_RESERVATIONS, API_PATH.WALLET_DID_PUBLIC]

/-- List of every templated path accessor exported by `API_PATH`, in source
order. -/
def templatedPaths : List (String → String) :=
  [API_PATH.INNKEEPER_TENANT, API_PATH.INNKEEPER_RESERVATIONS_APPROVE,
   API_PATH.INNKEEPER_RESERVATIONS_DENY, API_PATH.CONNECTION,
   API_PATH.CONNECTIONS_INVITATION, API_PATH.HOLDER_CREDENTIALS_ACCEPT_OFFER,
   API_PATH.HOLDER_CREDENTIALS_REJECT_OFFER, API_PATH.HOLDER_CREDENTIAL,
   API_PATH.HOLDER_PRESENTATION, API_PATH.ISSUER_CREDENTIAL,
   API_PATH.ISSUER_CREDENTIAL_REVOKE, API_PATH.VERIFIER_PRESENTATION,
   API_PATH.GOVERNANCE_SCHEMA_TEMPLATE, API_PATH.GOVERNANCE_CREDENTIAL_TEMPLATE,
   API_PATH.BASICMESSAGES_SEND, API_PATH.MULTITENANCY_RESERVATION,
   API_PATH.MULTITENANCY_RESERVATION_CHECK_IN, API_PATH.MULTITENANCY_TENANT_TOKEN,
   API_PATH.MULTITENANCY_WALLET_TOKEN]

/-- The values of the `CONNECTION_STATUSES` enumeration, in source order. -/
def connectionStatusValues : List String :=
  [CONNECTION_STATUSES.INVITATION, CONNECTION_STATUSES.ACTIVE,
   CONNECTION_STATUSES.RESPONSE]

/-- The values of the `RESERVATION_STATUSES` enumeration, in source order. -/
def reservationStatusValues : List String :=
  [RESERVATION_STATUSES.APPROVED, RESERVATION_STATUSES.CHECKED_IN,
   RESERVATION_STATUSES.DENIED, RESERVATION_STATUSES.REQUESTED,
   RESERVATION_STATUSES.SHOW_WALLET]

theorem data_append (s t : String) : (s ++ t).data = s.data ++ t.data := rfl

theorem ne_empty_of_head (s : String) (c : Char) (h : s.data.head? = some c) :
    s ≠ "" := by
  intro he
  rw [he] at h
  exact Option.noConfusion h

/-- Claim C1: every templated-path accessor returns a fixed prefix, then the
id, then a fixed suffix; in particular INNKEEPER_TENANT "abc-123" is
"/innkeeper/tenants/abc-123" and BASICMESSAGES_SEND "conn-1" is
"/connections/conn-1/send-message". -/
theorem C1_templated_prefix_id_suffix :
    (∀ id : String,
      API_PATH.INNKEEPER_TENANT id = "/innkeeper/tenants/" ++ id ∧
      API_PATH.INNKEEPER_RESERVATIONS_APPROVE id =
        "/innkeeper/reservations/" ++ id ++ "/approve" ∧
      API_PATH.INNKEEPER_RESERVATIONS_DENY id =
        "/innkeeper/reservations/" ++ id ++ "/deny" ∧
      API_PATH.CONNECTION id = "/connections/" ++ id ∧
      API_PATH.CONNECTIONS_INVITATION id =
        "/connections/" ++ id ++ "/invitation" ∧
      API_PATH.HOLDER_CREDENTIALS_ACCEPT_OFFER id =
        "/tenant/v1/holder/credentials/" ++ id ++ "/accept-offer" ∧
      API_PATH.HOLDER_CREDENTIALS_REJECT_OFFER id =
        "/tenant/v1/holder/credentials/" ++ id ++ "/reject-offer" ∧
      API_PATH.HOLDER_CREDENTIAL id = "/tenant/v1/holder/credentials/" ++ id ∧
      API_PATH.HOLDER_PRESENTATION id =
        "/tenant/v1/holder/presentations/" ++ id ∧
      API_PATH.ISSUER_CREDENTIAL id = "/tenant/v1/issuer/credentials/" ++ id ∧
      API_PATH.ISSUER_CREDENTIAL_REVOKE id =
        "/tenant/v1/issuer/credentials/" ++ id ++ "/revoke-credential" ∧
      API_PATH.VERIFIER_PRESENTATION id =
        "/tenant/v1/verifier/presentations/" ++ id ∧
      API_PATH.GOVERNANCE_SCHEMA_TEMPLATE id =
        "/tenant/v1/governance/schema_templates/" ++ id ∧
      API_PATH.GOVERNANCE_CREDENTIAL_TEMPLATE id =
        "/tenant/v1/governance/credential_templates/" ++ id ∧
      API_PATH.BASICMESSAGES_SEND id =
        "/connections/" ++ id ++ "/send-message" ∧
      API_PATH.MULTITENANCY_RESERVATION id =
        "/multitenancy/reservations/" ++ id ∧
      API_PATH.MULTITENANCY_RESERVATION_CHECK_IN id =
        "/multitenancy/reservations/" ++ id ++ "/check-in" ∧
      API_PATH.MULTITENANCY_TENANT_TOKEN id =
        "/multitenancy/tenant/" ++ id ++ "/token" ∧
      API_PATH.MULTITENANCY_WALLET_TOKEN id =
        "/multitenancy/wallet/" ++ id ++ "/token") ∧
    API_PATH.INNKEEPER_TENANT "abc-123" = "/innkeeper/tenants/abc-123" ∧
    API_PATH.BASICMESSAGES_SEND "conn-1" =
      "/connections/conn-1/send-message" := by
  refine ⟨fun id => ?_, by decide, by decide⟩
  exact ⟨rfl, rfl, rfl, rfl, rfl, rfl, rfl, rfl, rfl, rfl, rfl, rfl, rfl, rfl,
    rfl, rfl, rfl, rfl, rfl⟩

/-- Claim C1 witness: the prefix-id-suffix shape instantiated at a concrete
id. -/
theorem C1_witness :
    API_PATH.CONNECTION "w1" = "/connections/" ++ "w1" :=
  (C1_templated_prefix_id_suffix.1 "w1").2.2.2.1

/-- Claim C2: every constant path in API_PATH equals, byte for byte, the
documented literal. -/
theorem C2_constant_paths_literal :
    API_PATH.CONFIG = "/config" ∧
    API_PATH.EMAIL_CONFIRMATION = "/email/reservationConfirmation" ∧
    API_PATH.EMAIL_STATUS = "/email/reservationStatus" ∧
    API_PATH.INNKEEPER_TOKEN = "/innkeeper/token" ∧
    API_PATH.INNKEEPER_TENANTS = "/innkeeper/tenants/" ∧
    API_PATH.INNKEEPER_RESERVATIONS = "/innkeeper/reservations/" ∧
    API_PATH.OIDC_INNKEEPER_LOGIN = "/api/innkeeperLogin" ∧
    API_PATH.TENANT_TOKEN = "/tenant/token" ∧
    API_PATH.CONNECTIONS = "/connections" ∧
    API_PATH.CONNECTIONS_CREATE_INVITATION = "/connections/create-invitation" ∧
    API_PATH.HOLDER_CREDENTIALS = "/tenant/v1/holder/credentials/" ∧
    API_PATH.HOLDER_PRESENTATIONS = "/tenant/v1/holder/presentations/" ∧
    API_PATH.ISSUER_CREDENTIALS = "/tenant/v1/issuer/credentials/" ∧
    API_PATH.VERIFIER_PRESENTATIONS = "/tenant/v1/verifier/presentations/" ∧
    API_PATH.VERIFIER_PRESENTATION_ADHOC_REQUEST =
      "/tenant/v1/verifier/presentations/adhoc-request" ∧
    API_PATH.VERIFIER_PRESENTATION_TEMPLATES =
      "/tenant/v1/verifier/presentation_templates/" ∧
    API_PATH.GOVERNANCE_SCHEMA_TEMPLATES =
      "/tenant/v1/governance/schema_templates/" ∧
    API_PATH.GOVERNANCE_SCHEMA_TEMPLATES_IMPORT =
      "/tenant/v1/governance/schema_templates/import" ∧
    API_PATH.GOVERNANCE_CREDENTIAL_TEMPLATES =
      "/tenant/v1/governance/credential_templates/" ∧
    API_PATH.BASICMESSAGES = "/basicmessages" ∧
    API_PATH.TENANT_SELF = "/tenant" ∧
    API_PATH.TENANT_ENDORSER_CONNECTION = "/tenant/endorser-connection" ∧
    API_PATH.TENANT_ENDORSER_INFO = "/tenant/endorser-info" ∧
    API_PATH.TENANT_REGISTER_PUBLIC_DID = "/tenant/register-public-did" ∧
    API_PATH.MULTITENANCY_RESERVATIONS = "/multitenancy/reservations" ∧
    API_PATH.WALLET_DID_PUBLIC = "/wallet/did/public" := by
  decide

/-- Claim C3: every constant path, and the output of every templated-path
accessor on every input, is a non-empty string whose first character is
a slash. -/
theorem C3_paths_start_with_slash :
    (∀ p ∈ constantPaths, p ≠ "" ∧ p.data.head? = some '/') ∧
    (∀ f ∈ templatedPaths, ∀ id : String,
      f id ≠ "" ∧ (f id).data.head? = some '/') := by
  refine ⟨by decide, ?_⟩
  intro f hf id
  simp only [templatedPaths, List.mem_cons, List.not_mem_nil, or_false] at hf
  rcases hf with rfl | rfl | rfl | rfl | rfl | rfl | rfl | rfl | rfl | rfl |
    rfl | rfl | rfl | rfl | rfl | rfl | rfl | rfl | rfl <;>
    exact ⟨ne_empty_of_head _ '/' rfl, rfl⟩

/-- Claim C3 witness: the slash invariant instantiated at a concrete constant
path and a concrete accessor input. -/
theorem C3_witness :
    API_PATH.CONFIG ≠ "" ∧
    (API_PATH.INNKEEPER_TENANT "abc").data.head? = some '/' :=
  ⟨(C3_paths_start_with_slash.1 API_PATH.CONFIG (by decide)).1,
   (C3_paths_start_with_slash.2 API_PATH.INNKEEPER_TENANT
     (List.mem_cons_self _ _) "abc").2⟩

/-- Claim C4: ROWS_DEFAULT is 10 and belongs to ROWS_OPTIONS, which equals
[10, 25, 50] and is strictly ascending. -/
theorem C4_table_opt :
    TABLE_OPT.ROWS_DEFAULT = 10 ∧
    TABLE_OPT.ROWS_OPTIONS = [10, 25, 50] ∧
    TABLE_OPT.ROWS_DEFAULT ∈ TABLE_OPT.ROWS_OPTIONS ∧
    TABLE_OPT.ROWS_OPTIONS.Pairwise (fun a b => a < b) := by
  decide

/-- Claim C5: CONNECTION_STATUSES has exactly three pairwise-distinct values,
namely invitation, active and response. -/
theorem C5_connection_statuses :
    connectionStatusValues.length = 3 ∧
    connectionStatusValues.Nodup ∧
    connectionStatusValues = ["invitation", "active", "response"] := by
  decide

/-- Claim C6: RESERVATION_STATUSES has exactly five pairwise-distinct values,
and the UI-only show_wallet differs from each backend-reported value. -/
theorem C6_reservation_statuses :
    reservationStatusValues.length = 5 ∧
    reservationStatusValues.Nodup ∧
    reservationStatusValues =
      ["approved", "checked_in", "denied", "requested", "show_wallet"] ∧
    RESERVATION_STATUSES.SHOW_WALLET ∉
      ["approved", "checked_in", "denied", "requested"] := by
  decide

/-- Claim C7: every templated-path accessor is total and substitutes its
input verbatim, character for character, with no validation, escaping or
URL-encoding — including the empty string and strings containing slashes,
question marks, hashes or spaces. -/
theorem C7_verbatim_no_escaping :
    (∀ id : String,
      (API_PATH.INNKEEPER_TENANT id).data =
        "/innkeeper/tenants/".data ++ id.data ∧
      (API_PATH.INNKEEPER_RESERVATIONS_APPROVE id).data =
        "/innkeeper/reservations/".data ++ id.data ++ "/approve".data ∧
      (API_PATH.INNKEEPER_RESERVATIONS_DENY id).data =
        "/innkeeper/reservations/".data ++ id.data ++ "/deny".data ∧
      (API_PATH.CONNECTION id).data = "/connections/".data ++ id.data ∧
      (API_PATH.CONNECTIONS_INVITATION id).data =
        "/connections/".data ++ id.data ++ "/invitation".data ∧
      (API_PATH.HOLDER_CREDENTIALS_ACCEPT_OFFER id).data =
        "/tenant/v1/holder/credentials/".data ++ id.data ++
          "/accept-offer".data ∧
      (API_PATH.HOLDER_CREDENTIALS_REJECT_OFFER id).data =
        "/tenant/v1/holder/credentials/".data ++ id.data ++
          "/reject-offer".data ∧
      (API_PATH.HOLDER_CREDENTIAL id).data =
        "/tenant/v1/holder/credentials/".data ++ id.data ∧
      (API_PATH.HOLDER_PRESENTATION id).data =
        "/tenant/v1/holder/presentations/".data ++ id.data ∧
      (API_PATH.ISSUER_CREDENTIAL id).data =
        "/tenant/v1/issuer/credentials/".data ++ id.data ∧
      (API_PATH.ISSUER_CREDENTIAL_REVOKE id).data =
        "/tenant/v1/issuer/credentials/".data ++ id.data ++
          "/revoke-credential".data ∧
      (API_PATH.VERIFIER_PRESENTATION id).data =
        "/tenant/v1/verifier/presentations/".data ++ id.data ∧
      (API_PATH.GOVERNANCE_SCHEMA_TEMPLATE id).data =
        "/tenant/v1/governance/schema_templates/".data ++ id.data ∧
      (API_PATH.GOVERNANCE_CREDENTIAL_TEMPLATE id).data =
        "/tenant/v1/governance/credential_templates/".data ++ id.data ∧
      (API_PATH.BASICMESSAGES_SEND id).data =
        "/connections/".data ++ id.data ++ "/send-message".data ∧
      (API_PATH.MULTITENANCY_RESERVATION id).data =
        "/multitenancy/reservations/".data ++ id.data ∧
      (API_PATH.MULTITENANCY_RESERVATION_CHECK_IN id).data =
        "/multitenancy/reservations/".data ++ id.data ++ "/check-in".data ∧
      (API_PATH.MULTITENANCY_TENANT_TOKEN id).data =
        "/multitenancy/tenant/".data ++ id.data ++ "/token".data ∧
      (API_PATH.MULTITENANCY_WALLET_TOKEN id).data =
        "/multitenancy/wallet/".data ++ id.data ++ "/token".data) ∧
    API_PATH.INNKEEPER_TENANT "" = "/innkeeper/tenants/" ∧
    API_PATH.INNKEEPER_TENANT "a/b?c#d e" = "/innkeeper/tenants/a/b?c#d e" ∧
    API_PATH.MULTITENANCY_RESERVATION "" = "/multitenancy/reservations/" ∧
    API_PATH.MULTITENANCY_RESERVATION "x/y?z#w s" =
      "/multitenancy/reservations/x/y?z#w s" := by
  refine ⟨fun id => ?_, by decide, by decide, by decide, by decide⟩
  exact ⟨rfl, rfl, rfl, rfl, rfl, rfl, rfl, rfl, rfl, rfl, rfl, rfl, rfl, rfl,
    rfl, rfl, rfl, rfl, rfl⟩

/-- Claim C7 witness: verbatim substitution instantiated at a concrete id
containing a hash character. -/
theorem C7_witness :
    (API_PATH.INNKEEPER_TENANT "q#r").data =
      "/innkeeper/tenants/".data ++ "q#r".data :=
  (C7_verbatim_no_escaping.1 "q#r").1

/-- Claim C8: every templated-path accessor is deterministic: equal inputs
give identical outputs, with no hidden state influencing the result. -/
theorem C8_accessors_deterministic :
    ∀ f ∈ templatedPaths, ∀ id1 id2 : String, id1 = id2 → f id1 = f id2 := by
  intro f _ id1 id2 h
  rw [h]

/-- Claim C8 witness: determinism instantiated at a concrete accessor and
input. -/
theorem C8_witness : API_PATH.INNKEEPER_TENANT "c" = API_PATH.INNKEEPER_TENANT "c" :=
  C8_accessors_deterministic API_PATH.INNKEEPER_TENANT
    (List.mem_cons_self _ _) "c" "c" rfl

/-- Claim C9: with an empty id, INNKEEPER_TENANT and HOLDER_CREDENTIAL return
exactly their collection constants, while CONNECTION returns "/connections/"
which differs from the CONNECTIONS constant. -/
theorem C9_empty_id_collisions :
    API_PATH.INNKEEPER_TENANT "" = API_PATH.INNKEEPER_TENANTS ∧
    API_PATH.HOLDER_CREDENTIAL "" = API_PATH.HOLDER_CREDENTIALS ∧
    API_PATH.CONNECTION "" = "/connections/" ∧
    API_PATH.CONNECTION "" ≠ API_PATH.CONNECTIONS := by
  decide

/-- Claim C10: a templated accessor can collide with a distinct constant
endpoint: VERIFIER_PRESENTATION "adhoc-request" equals
VERIFIER_PRESENTATION_ADHOC_REQUEST, and GOVERNANCE_SCHEMA_TEMPLATE "import"
equals GOVERNANCE_SCHEMA_TEMPLATES_IMPORT. -/
theorem C10_accessor_constant_collisions :
    API_PATH.VERIFIER_PRESENTATION "adhoc-request" =
      API_PATH.VERIFIER_PRESENTATION_ADHOC_REQUEST ∧
    API_PATH.GOVERNANCE_SCHEMA_TEMPLATE "import" =
      API_PATH.GOVERNANCE_SCHEMA_TEMPLATES_IMPORT := by
  decide

end Traction
